import Mathlib

/-!
Shallow embedding of `src/app.py` (KUR File Manager, a Streamlit dashboard
over the Google Drive v3 API) and verification of the frozen claims about it.

Modelling conventions:
* Python strings are Lean `String`s; Python's `pat in s` substring test is
  `strIn pat s` below.
* The remote Drive service is a black box.  Its two endpoints used by the
  code (`files().list(...).execute()` and the chunked `MediaIoBaseDownload`
  of a prepared request) are modelled as fields of `DriveService` returning
  `Except String _`: `Except.error e` models the endpoint raising an
  exception whose `str(e)` is `e`, `Except.ok` models normal completion.
* `get_drive_service()` may return `None` (missing credentials); callers
  receive `Option DriveService`.
* A Python function body that may raise an uncaught exception is modelled
  with an `Except` result, `Except.error` being the propagated exception.
-/

/-- Single quote character, used when assembling Drive query strings. -/
def sqc : String := String.singleton (Char.ofNat 39)

/-- Boolean substring test on character lists: `hasSub pat s` holds iff
`pat` occurs contiguously in `s` (semantics of Python's `in`). -/
def hasSub (pat : List Char) : List Char → Bool
  | [] => pat.isEmpty
  | c :: rest => pat.isPrefixOf (c :: rest) || hasSub pat rest

/-- Python's `pat in s` substring operator on strings. -/
def strIn (pat s : String) : Bool := hasSub pat.toList s.toList

/-- Python's `s.endswith(suf)`. -/
def endsWith (s suf : String) : Bool := suf.toList.isSuffixOf s.toList

/-- A prepared Drive request, as built in `get_file_content`:
either a server-side export (`files().export_media(fileId, mimeType)`)
or a verbatim download (`files().get_media(fileId)`). -/
inductive DriveRequest
  | exportMedia (fileId : String) (mimeType : String)
  | getMedia (fileId : String)
deriving DecidableEq

/-- One entry of the `files` array returned by `files().list`:
the fields `id`, `name`, `mimeType` requested by the code. -/
structure FileMeta where
  id : String
  name : String
  mimeType : String
deriving DecidableEq

/-- Black-box model of the authenticated Drive service handle.
`list q pageSize fields` models `files().list(q=..., pageSize=...,
fields=...).execute()` followed by `.get('files', [])`;
`download r` models executing a chunked `MediaIoBaseDownload` of the
prepared request `r` to completion.  `Except.error e` models the call
raising an exception with message `e`. -/
structure DriveService where
  list : String → Nat → String → Except String (List FileMeta)
  download : DriveRequest → Except String (List Nat)

/-- The first component of `get_file_content`'s result: Python `None`,
raw downloaded bytes, or the error string built in the `except` clause. -/
inductive Content
  | noneContent
  | bytes (data : List Nat)
  | message (s : String)
deriving DecidableEq

/-- Request/category dispatch of `get_file_content` (src/app.py lines
38-58): chooses between export and verbatim download and assigns the
`dtype` label, exactly following the source's branch order. -/
def resolve_request (file_id mime_type : String) : DriveRequest × String :=
  if strIn "application/vnd.google-apps" mime_type then
    if strIn "spreadsheet" mime_type then
      (DriveRequest.exportMedia file_id
        "application/vnd.openxmlformats-officedocument.spreadsheetml.sheet",
       "excel")
    else if strIn "document" mime_type then
      (DriveRequest.exportMedia file_id "application/pdf", "pdf")
    else
      (DriveRequest.exportMedia file_id "application/pdf", "pdf")
  else
    (DriveRequest.getMedia file_id,
      if strIn "image" mime_type then "image"
      else if strIn "pdf" mime_type then "pdf"
      else if strIn "spreadsheet" mime_type || strIn "excel" mime_type then "excel"
      else if strIn "word" mime_type || strIn "document" mime_type then "word"
      else if strIn "text/plain" mime_type then "text"
      else "other")

/-- `get_file_content(file_id, mime_type)` (src/app.py lines 32-70).
Returns `(None, "error")` when no service handle is available; otherwise
builds the request/category via `resolve_request`, runs the download, and
on an exception returns `("Error: " + str(e), "error")`. -/
def get_file_content (service : Option DriveService)
    (file_id mime_type : String) : Content × String :=
  match service with
  | none => (Content.noneContent, "error")
  | some svc =>
    let rd := resolve_request file_id mime_type
    match svc.download rd.1 with
    | Except.ok data => (Content.bytes data, rd.2)
    | Except.error e => (Content.message ("Error: " ++ e), "error")

/-- Modelled from the spec: the claimed fixed substring-precedence order
(image > pdf > excel > word > text > other) for non-native content types,
transcribed from the spec's words for comparison with `resolve_request`. -/
def spec_precedence_category (mime_type : String) : String :=
  if strIn "image" mime_type then "image"
  else if strIn "pdf" mime_type then "pdf"
  else if strIn "spreadsheet" mime_type || strIn "excel" mime_type then "excel"
  else if strIn "word" mime_type || strIn "document" mime_type then "word"
  else if strIn "text/plain" mime_type then "text"
  else "other"

/-- C1: for content types outside the Google-native family,
`get_file_content` performs a verbatim download and assigns exactly the
category given by the spec's precedence order; in particular
`application/vnd.ms-excel` is tagged `excel`, `text/plain` is tagged
`text`, and `application/zip` is tagged `other`. -/
theorem c1_nonnative_category :
    (∀ file_id mime_type : String,
        strIn "application/vnd.google-apps" mime_type = false →
        resolve_request file_id mime_type =
          (DriveRequest.getMedia file_id, spec_precedence_category mime_type))
    ∧ (resolve_request "f" "application/vnd.ms-excel").2 = "excel"
    ∧ (resolve_request "f" "text/plain").2 = "text"
    ∧ (resolve_request "f" "application/zip").2 = "other" := by
  refine ⟨?_, by decide, by decide, by decide⟩
  intro file_id mime_type h
  simp [resolve_request, spec_precedence_category, h]

/-- Witness for C1 at the concrete input `text/plain`. -/
theorem c1_nonnative_category_witness :
    resolve_request "f" "text/plain" =
      (DriveRequest.getMedia "f", spec_precedence_category "text/plain") :=
  c1_nonnative_category.1 "f" "text/plain" (by decide)

/-- C2: for content types inside the Google-native family,
`get_file_content` requests a server-side export: spreadsheets are
exported to the xlsx interchange format and tagged `excel`; otherwise a
native type containing `document` is exported to PDF and tagged `pdf`;
any other native subtype is likewise exported to PDF and tagged `pdf`. -/
theorem c2_native_export :
    ∀ file_id mime_type : String,
      strIn "application/vnd.google-apps" mime_type = true →
      (strIn "spreadsheet" mime_type = true →
        resolve_request file_id mime_type =
          (DriveRequest.exportMedia file_id
            "application/vnd.openxmlformats-officedocument.spreadsheetml.sheet",
           "excel"))
      ∧ (strIn "spreadsheet" mime_type = false →
        resolve_request file_id mime_type =
          (DriveRequest.exportMedia file_id "application/pdf", "pdf")) := by
  intro file_id mime_type hnative
  constructor
  · intro hs
    simp [resolve_request, hnative, hs]
  · intro hs
    by_cases hd : strIn "document" mime_type = true
    · simp [resolve_request, hnative, hs, hd]
    · simp [resolve_request, hnative, hs, hd]

/-- Witness for C2 at the concrete input
`application/vnd.google-apps.spreadsheet`. -/
theorem c2_native_export_witness :
    resolve_request "f" "application/vnd.google-apps.spreadsheet" =
      (DriveRequest.exportMedia "f"
        "application/vnd.openxmlformats-officedocument.spreadsheetml.sheet",
       "excel") :=
  (c2_native_export "f" "application/vnd.google-apps.spreadsheet"
    (by decide)).1 (by decide)

/-- C3: whenever the chunked export/download raises, `get_file_content`
returns category `error` paired with the message string
`"Error: " ++ str(e)`, which is never empty; no exception escapes. -/
theorem c3_download_error :
    ∀ (svc : DriveService) (file_id mime_type e : String),
      svc.download (resolve_request file_id mime_type).1 = Except.error e →
      get_file_content (some svc) file_id mime_type =
        (Content.message ("Error: " ++ e), "error")
      ∧ ("Error: " ++ e) ≠ "" := by
  intro svc file_id mime_type e h
  refine ⟨?_, ?_⟩
  · simp [get_file_content, h]
  · intro hcontr
    have hlen : ("Error: " ++ e).length = 0 := by rw [hcontr]; rfl
    rw [String.length_append] at hlen
    have h7 : ("Error: " : String).length = 7 := rfl
    rw [h7] at hlen
    omega

/-- A Drive service whose endpoints always raise, used as a concrete
failing remote in witnesses and counterexamples. -/
def failingService : DriveService :=
  { list := fun _ _ _ => Except.error "boom"
    download := fun _ => Except.error "boom" }

/-- Witness for C3: the always-raising service at a concrete input. -/
theorem c3_download_error_witness :
    get_file_content (some failingService) "f" "text/plain" =
      (Content.message "Error: boom", "error")
    ∧ ("Error: " ++ "boom") ≠ "" :=
  c3_download_error failingService "f" "text/plain" "boom" rfl

/-- Fixed Drive query used by `get_shared_folders` (src/app.py line 77). -/
def folders_query : String :=
  "mimeType = " ++ sqc ++ "application/vnd.google-apps.folder" ++ sqc ++
    " and trashed = false"

/-- Fields parameter of `get_shared_folders`'s list call. -/
def folders_fields : String := "files(id, name)"

/-- `get_shared_folders()` (src/app.py lines 73-81).  Returns the empty
mapping when no service handle is available; otherwise issues the folder
list call with no exception handler, so a raising call propagates
(`Except.error`); on success builds the name-to-identifier mapping (the
Python dict is modelled as the association list of its insertions). -/
def get_shared_folders (service : Option DriveService) :
    Except String (List (String × String)) :=
  match service with
  | none => Except.ok []
  | some svc =>
    match svc.list folders_query 50 folders_fields with
    | Except.ok files => Except.ok (files.map fun f => (f.name, f.id))
    | Except.error e => Except.error e

/-- C4 counterexample: against a service whose folder-listing call raises,
`get_shared_folders` propagates the exception instead of returning the
empty mapping, refuting the claim at this concrete input. -/
theorem c4_counterexample :
    get_shared_folders (some failingService) = Except.error "boom"
    ∧ (Except.error "boom" :
        Except String (List (String × String))) ≠ Except.ok [] := by
  exact ⟨rfl, fun h => Except.noConfusion h⟩

/-- C4 amended: `get_shared_folders` returns the empty mapping when no
service handle is available, and an empty listing yields an empty mapping;
but when the folder-listing service call raises, the exception propagates
uncaught to the caller. -/
theorem c4_amended :
    (get_shared_folders none = Except.ok [])
    ∧ (∀ (svc : DriveService) (e : String),
        svc.list folders_query 50 folders_fields = Except.error e →
        get_shared_folders (some svc) = Except.error e)
    ∧ (∀ svc : DriveService,
        svc.list folders_query 50 folders_fields = Except.ok [] →
        get_shared_folders (some svc) = Except.ok []) := by
  refine ⟨rfl, ?_, ?_⟩
  · intro svc e h
    simp [get_shared_folders, h]
  · intro svc h
    simp [get_shared_folders, h]

/-- Witness for C4 amended: the always-raising service propagates. -/
theorem c4_amended_witness :
    get_shared_folders (some failingService) = Except.error "boom" :=
  c4_amended.2.1 failingService "boom" rfl

/-- Extension inferred from the resolved category in the download tab
(src/app.py lines 155-160). -/
def download_ext (dtype : String) : String :=
  if dtype = "pdf" then ".pdf"
  else if dtype = "excel" then ".xlsx"
  else if dtype = "word" then ".docx"
  else if dtype = "text" then ".txt"
  else if dtype = "image" then ".jpg"
  else ".bin"

/-- `final_name` (src/app.py line 162): append the inferred extension to
the document name unless the name already ends with it. -/
def final_name (f_name dtype : String) : String :=
  if endsWith f_name (download_ext dtype) then f_name
  else f_name ++ download_ext dtype

/-- C5: extension inference is idempotent: a name already ending in the
category's inferred extension is kept unchanged, and otherwise the
extension is appended exactly once. -/
theorem c5_final_name_idempotent :
    ∀ f_name dtype : String,
      (endsWith f_name (download_ext dtype) = true →
        final_name f_name dtype = f_name)
      ∧ (endsWith f_name (download_ext dtype) = false →
        final_name f_name dtype = f_name ++ download_ext dtype) := by
  intro f_name dtype
  constructor
  · intro h; simp [final_name, h]
  · intro h; simp [final_name, h]

/-- Witness for C5 at concrete inputs: `report.pdf` with category `pdf`
stays unchanged, and `notes` with category `text` gains `.txt` once. -/
theorem c5_final_name_idempotent_witness :
    final_name "report.pdf" "pdf" = "report.pdf"
    ∧ final_name "notes" "text" = "notes" ++ ".txt" :=
  ⟨(c5_final_name_idempotent "report.pdf" "pdf").1 (by decide),
   (c5_final_name_idempotent "notes" "text").2 (by decide)⟩

/-- Credential environment of `get_drive_service` (src/app.py lines
16-29): whether `st.secrets` holds a `gcp_service_account` entry, and
whether the local `credentials.json` file exists. -/
structure Env where
  secretsHasGcp : Bool
  credFilePresent : Bool
deriving DecidableEq

/-- One call to `get_drive_service()`: returns whether a handle is
obtained together with how many credential/handle constructions the call
performed.  The source builds credentials and calls `build(...)` afresh on
every invocation (there is no caching decorator or module-level handle);
when neither credential source is available it returns `None` without
constructing anything. -/
def get_drive_service_call (env : Env) : Option Unit × Nat :=
  if env.secretsHasGcp then (some (), 1)
  else if env.credFilePresent then (some (), 1)
  else (none, 0)

/-- The public operations of the app; each of `get_shared_folders`,
`search_drive` and `get_file_content` begins by calling
`get_drive_service()` exactly once (src/app.py lines 34, 74, 85). -/
inductive AppCall
  | foldersCall
  | searchCall (query_text : String) (folder_id : Option String)
  | contentCall (file_id mime_type : String)

/-- Total number of credential/handle constructions performed across a
sequence of operation calls within one process: each operation performs
the constructions of one fresh `get_drive_service()` call. -/
def trace_constructions (env : Env) : List AppCall → Nat
  | [] => 0
  | _ :: rest => (get_drive_service_call env).2 + trace_constructions env rest

/-- C6 counterexample: with credentials available, a process making two
operation calls performs two constructions, not at most one — the handle
is rebuilt per call, refuting the memoization claim. -/
theorem c6_counterexample :
    ¬ trace_constructions ⟨true, true⟩
        [AppCall.foldersCall, AppCall.foldersCall] ≤ 1 := by
  decide

/-- When either credential source is available — the secret-store entry
or the local credentials file — one `get_drive_service()` call performs
exactly one credential/handle construction. -/
lemma get_drive_service_call_constructs (env : Env)
    (h : env.secretsHasGcp = true ∨ env.credFilePresent = true) :
    (get_drive_service_call env).2 = 1 := by
  rcases h with hs | hf
  · simp [get_drive_service_call, hs]
  · cases hsec : env.secretsHasGcp with
    | true => simp [get_drive_service_call, hsec]
    | false => simp [get_drive_service_call, hsec, hf]

/-- C6 amended: the handle is not memoized: whenever credentials are
available (from the secret store or from the local credentials file),
every operation call triggers a fresh credential/handle construction, so
a sequence of calls performs exactly one construction per call. -/
theorem c6_amended :
    ∀ (env : Env) (calls : List AppCall),
      env.secretsHasGcp = true ∨ env.credFilePresent = true →
      trace_constructions env calls = calls.length := by
  intro env calls hs
  induction calls with
  | nil => rfl
  | cons c rest ih =>
    simp [trace_constructions, get_drive_service_call_constructs env hs, ih]
    omega

/-- Witness for C6 amended in the credentials-file-only environment:
two calls, two constructions. -/
theorem c6_amended_witness :
    trace_constructions ⟨false, true⟩
        [AppCall.foldersCall, AppCall.foldersCall] = 2 :=
  c6_amended ⟨false, true⟩ [AppCall.foldersCall, AppCall.foldersCall]
    (Or.inr rfl)

/-- Search filter string built by `search_drive` (src/app.py lines
88-90): the full-text predicate and `trashed = false` joined by `and`,
with the parents predicate appended exactly when a folder id is given. -/
def build_search_query (query_text : String)
    (specific_folder_id : Option String) : String :=
  let base := "fullText contains " ++ sqc ++ query_text ++ sqc ++
    " and trashed = false"
  match specific_folder_id with
  | none => base
  | some fid => base ++ " and " ++ sqc ++ fid ++ sqc ++ " in parents"

/-- Fields parameter of `search_drive`'s list call. -/
def search_fields : String := "files(id, name, mimeType)"

/-- Outcome of `search_drive`: the descriptor list it returns, plus the
error message shown via `st.error`, if any. -/
structure SearchOutcome where
  results : List FileMeta
  reported : Option String
deriving DecidableEq

/-- `search_drive(query_text, specific_folder_id)` (src/app.py lines
84-101): returns `[]` silently when no service handle is available;
otherwise issues the list call with the built filter at page size 15 and,
if it raises, shows `API Error: <e>` and returns `[]`. -/
def search_drive (service : Option DriveService) (query_text : String)
    (specific_folder_id : Option String) : SearchOutcome :=
  match service with
  | none => ⟨[], none⟩
  | some svc =>
    match svc.list (build_search_query query_text specific_folder_id)
        15 search_fields with
    | Except.ok files => ⟨files, none⟩
    | Except.error e => ⟨[], some ("API Error: " ++ e)⟩

/-- C7: when the remote list call raises, `search_drive` reports the
error to the user and returns the empty sequence of descriptors; no
exception reaches the page. -/
theorem c7_search_error :
    ∀ (svc : DriveService) (query_text : String)
      (specific_folder_id : Option String) (e : String),
      svc.list (build_search_query query_text specific_folder_id)
          15 search_fields = Except.error e →
      search_drive (some svc) query_text specific_folder_id =
        ⟨[], some ("API Error: " ++ e)⟩ := by
  intro svc query_text specific_folder_id e h
  simp [search_drive, h]

/-- Witness for C7: the always-raising service at a concrete query. -/
theorem c7_search_error_witness :
    search_drive (some failingService) "Invoice" none =
      ⟨[], some ("API Error: " ++ "boom")⟩ :=
  c7_search_error failingService "Invoice" none "boom" rfl

/-- C8: the filter string is exactly the full-text predicate and
`trashed = false` joined by `and`, with the quoted-parents predicate
appended (again via `and`) exactly when a folder id is given; nothing
else appears in the filter. -/
theorem c8_query_build :
    (∀ query_text : String,
      build_search_query query_text none =
        "fullText contains " ++ sqc ++ query_text ++ sqc ++
          " and trashed = false")
    ∧ (∀ query_text fid : String,
      build_search_query query_text (some fid) =
        "fullText contains " ++ sqc ++ query_text ++ sqc ++
          " and trashed = false" ++ " and " ++ sqc ++ fid ++ sqc ++
          " in parents") :=
  ⟨fun _ => rfl, fun _ _ => rfl⟩

/-- Result of the preview dispatch (src/app.py lines 180-208): which
Streamlit rendering call is made with which payload. -/
inductive RenderAction
  | imageView (c : Content)
  | pdfView (c : Content) (width height : Nat)
  | dataframe (rows : List (List String))
  | markdown (text : String)
  | textArea (label : String) (text : String) (height : Nat)
  | warning (msg : String)
  | info (msg : String)
deriving DecidableEq

/-- Black-box third-party decoders used by the preview tab:
`pd.read_excel`, `docx.Document` (yielding the paragraph texts in
document order), and `bytes.decode("utf-8")`.  `Except.error` models the
library raising on the given payload. -/
structure PreviewLibs where
  readExcel : Content → Except Unit (List (List String))
  readDocx : Content → Except Unit (List String)
  decodeUtf8 : Content → Except Unit String

/-- Preview tab dispatch (src/app.py lines 180-208), following the
source's branch order; the word branch joins the parsed paragraph texts
with a blank line (`"\n\n".join`) and renders them as markdown, and each
parse failure is caught and shown as a warning. -/
def render_preview (libs : PreviewLibs) (content : Content)
    (dtype : String) : RenderAction :=
  if dtype = "image" then RenderAction.imageView content
  else if dtype = "pdf" then RenderAction.pdfView content 700 800
  else if dtype = "excel" then
    match libs.readExcel content with
    | Except.ok rows => RenderAction.dataframe rows
    | Except.error _ => RenderAction.warning "Cannot read Excel file."
  else if dtype = "word" then
    match libs.readDocx content with
    | Except.ok paras =>
        RenderAction.markdown (String.intercalate "\n\n" paras)
    | Except.error _ => RenderAction.warning "Cannot read Word document."
  else if dtype = "text" then
    match libs.decodeUtf8 content with
    | Except.ok t => RenderAction.textArea "File Content" t 400
    | Except.error _ =>
        RenderAction.warning "Cannot read text file encoding."
  else RenderAction.info "Preview not available for this file type."

/-- C9: for a word-category document, a successful parse renders a single
formatted-text block equal to the paragraph texts joined by a blank line
in document order, and a parse failure shows a warning. -/
theorem c9_word_preview :
    ∀ (libs : PreviewLibs) (content : Content),
      (∀ paras : List String,
        libs.readDocx content = Except.ok paras →
        render_preview libs content "word" =
          RenderAction.markdown (String.intercalate "\n\n" paras))
      ∧ (libs.readDocx content = Except.error () →
        render_preview libs content "word" =
          RenderAction.warning "Cannot read Word document.") := by
  intro libs content
  constructor
  · intro paras h
    simp [render_preview, h]
  · intro h
    simp [render_preview, h]

/-- Concrete third-party decoders: a docx parser returning two
paragraphs, with the other decoders failing. -/
def twoParaLibs : PreviewLibs :=
  { readExcel := fun _ => Except.error ()
    readDocx := fun _ => Except.ok ["Hello", "World"]
    decodeUtf8 := fun _ => Except.error () }

/-- Witness for C9: with a parser yielding two paragraphs, the rendered
block is the two texts joined by a blank line. -/
theorem c9_word_preview_witness :
    render_preview twoParaLibs (Content.bytes [1, 2]) "word" =
      RenderAction.markdown (String.intercalate "\n\n" ["Hello", "World"]) :=
  (c9_word_preview twoParaLibs (Content.bytes [1, 2])).1
    ["Hello", "World"] rfl

/-- C10: with no service handle available, `get_file_content` returns the
pair `(None, "error")`: the error category is paired with Python `None`,
not with any message string. -/
theorem c10_no_service :
    ∀ file_id mime_type : String,
      get_file_content none file_id mime_type =
        (Content.noneContent, "error") := by
  intro file_id mime_type
  rfl
